import Mathlib

/-!
Shallow embedding of the `counterai` image-detection repository
(`src/model/model_handler.py` and `src/model/detect.py`).

Modelling conventions:
* Python floats (scores, thresholds, box coordinates) are modelled as exact
  rationals `ℚ`; the code only compares and copies them, so order comparisons
  are faithfully represented.
* External collaborators (PIL decoding, torchvision weights, the pretrained
  network, CUDA availability, the filesystem) are explicit environment
  records of opaque functions, passed to each operation.
* Python exceptions become `Except PyError`; each distinct raise site (and
  each distinct low-level exception class the code can surface) is a
  distinct `PyError` constructor.
* Methods that receive `self` are translated in state-passing style: they
  take the `Detector` record and return the (possibly updated) record, so
  that mutation-freedom is a provable statement rather than a notational
  accident.
-/

namespace CounterAI

/-- Opaque handle to a decoded PIL image (`PIL.Image.Image`). -/
structure PILImage where
  pixels : Nat
deriving DecidableEq, Repr

/-- Opaque handle to a numpy pixel array (`np.ndarray`). -/
structure NdArray where
  raw : Nat
deriving DecidableEq, Repr

/-- Opaque handle to a torch tensor, together with the two observable
manipulations `detect` performs on it: adding a batch dimension
(`unsqueeze(0)`) and moving it to a device (`.to(device)`). -/
structure Tensor where
  data : Nat
  batched : Bool
  device : String
deriving DecidableEq, Repr

/-- Add a leading batch dimension of size 1 (`tensor.unsqueeze(0)`). -/
def Tensor.unsqueeze0 (t : Tensor) : Tensor :=
  { t with batched := true }

/-- Move the tensor to a device (`tensor.to(device)`). -/
def Tensor.toDevice (t : Tensor) (dev : String) : Tensor :=
  { t with device := dev }

/-- Python exceptions the translated code can raise.  Each constructor is one
raise site of `model_handler.py` or one low-level exception class that its
unchecked operations can surface. -/
inductive PyError where
  /-- Raise site `ValueError("Unsupported model: ...")` in `_load_model`. -/
  | valueErrorUnsupportedModel (model_name : String)
  /-- Raise site `ValueError("Unsupported image type: ...")` in `preprocess_image`. -/
  | valueErrorUnsupportedImageType
  /-- PIL decode failure (unreadable path, corrupt bytes, bad array dtype). -/
  | imageDecodeError
  /-- Low-level `IndexError: list index out of range` from the unchecked
  `class_names[label]` lookup in `detect`. -/
  | indexError
  /-- Calling `self.model(...)` while `self.model is None` (`TypeError`). -/
  | noneNotCallable
  /-- Structured inference error demanded by the spec taxonomy.  No line of
  the source raises it; it exists so the spec's demand is statable. -/
  | inferenceError
deriving DecidableEq, Repr

/-- Raw output of the black-box network for a single batch item:
`boxes` (N×4 floats), `scores` (N floats), `labels` (N integers). -/
structure RawPrediction where
  boxes : List (ℚ × ℚ × ℚ × ℚ)
  scores : List ℚ
  labels : List Nat
deriving DecidableEq, Repr

/-- The black-box detection network.  `infer` is the single forward pass in
`torch.no_grad()` mode; `hasGetClassNames`/`getClassNames` model the
`hasattr(self.model, 'get_class_names')` probe in `detect`. -/
structure NetworkModel where
  infer : Tensor → RawPrediction
  hasGetClassNames : Bool
  getClassNames : List String

/-- External torch/torchvision facilities used at construction:
`torch.cuda.is_available()`, the pretrained
`fasterrcnn_resnet50_fpn(weights=DEFAULT)` network, and the preprocessing
transform baked into the default weights (`weights.transforms()`). -/
structure TorchEnv where
  cudaAvailable : Bool
  pretrained : NetworkModel
  weightsTransform : PILImage → Tensor

/-- External PIL/torchvision facilities used by `preprocess_image`:
`Image.open` on a path, `Image.open` on a `BytesIO` buffer,
`Image.fromarray`, the `.convert('RGB')` method, and the fallback
`transforms.ToTensor()` conversion.  `none` models a raised decode error. -/
structure PILEnv where
  openPath : String → Option PILImage
  openBytes : List Nat → Option PILImage
  fromarray : NdArray → Option PILImage
  convertRGB : PILImage → PILImage
  toTensor : PILImage → Tensor

/-- The four recognized image input forms of `preprocess_image`, plus a tag
for a value of any other Python type (the tagged-union rendering of the
`isinstance` dispatch). -/
inductive ImageInput where
  /-- A filesystem path (`str`). -/
  | path (p : String)
  /-- A raw encoded byte buffer (`bytes`). -/
  | bytesData (b : List Nat)
  /-- A decoded in-memory pixel array (`np.ndarray`). -/
  | ndarray (a : NdArray)
  /-- An already-decoded image object (`PIL.Image.Image`). -/
  | pilImage (img : PILImage)
  /-- A value of any type other than the four recognized ones. -/
  | other
deriving DecidableEq, Repr

/-- One detection record produced by `detect`. -/
structure Detection where
  bbox : ℚ × ℚ × ℚ × ℚ
  score : ℚ
  label : String
  label_id : Nat
deriving DecidableEq, Repr

/-- The `ImageDetectionModel` instance state: exactly the attributes
`__init__` assigns (`self.device`, `self.model_name`, `self.model`,
`self.transform`). -/
structure Detector where
  device : String
  model_name : String
  model : Option NetworkModel
  transform : Option (PILImage → Tensor)

namespace ImageDetectionModel

/-- COCO class-name table from `_get_coco_class_names`, transcribed entry by
entry from the source. -/
def _get_coco_class_names : List String :=
  ["__background__", "person", "bicycle", "car", "motorcycle", "airplane", "bus",
   "train", "truck", "boat", "traffic light", "fire hydrant", "N/A", "stop sign",
   "parking meter", "bench", "bird", "cat", "dog", "horse", "sheep", "cow",
   "elephant", "bear", "zebra", "giraffe", "N/A", "backpack", "umbrella", "N/A", "N/A",
   "handbag", "tie", "suitcase", "frisbee", "skis", "snowboard", "sports ball",
   "kite", "baseball bat", "baseball glove", "skateboard", "surfboard", "tennis racket",
   "bottle", "N/A", "wine glass", "cup", "fork", "knife", "spoon", "bowl",
   "banana", "apple", "sandwich", "orange", "broccoli", "carrot", "hot dog", "pizza",
   "donut", "cake", "chair", "couch", "potted plant", "bed", "N/A", "dining table",
   "N/A", "N/A", "toilet", "N/A", "tv", "laptop", "mouse", "remote", "keyboard",
   "cell phone", "microwave", "oven", "toaster", "sink", "refrigerator", "N/A", "book",
   "clock", "vase", "scissors", "teddy bear", "hair drier", "toothbrush"]

/-- Device resolution in `__init__`:
`self.device = device if device else ('cuda' if torch.cuda.is_available() else 'cpu')`.
A supplied empty string is falsy in Python, hence also falls back. -/
def chooseDevice (cudaAvailable : Bool) (device : Option String) : String :=
  match device with
  | some s => if s = "" then (if cudaAvailable then "cuda" else "cpu") else s
  | none => if cudaAvailable then "cuda" else "cpu"

/-- Method `_load_model`: installs the pretrained network and its weights transform
when the name is the single supported one, otherwise raises `ValueError`.
(`self.model.to(self.device)` and `self.model.eval()` configure the opaque
network handle in place and are not otherwise observable here.) -/
def _load_model (env : TorchEnv) (d : Detector) : Except PyError Detector :=
  if d.model_name = "fasterrcnn_resnet50_fpn" then
    .ok { d with model := some env.pretrained,
                 transform := some env.weightsTransform }
  else
    .error (.valueErrorUnsupportedModel d.model_name)

/-- Constructor `__init__(model_name, device)`: set the four attributes, then run
`_load_model`.  A raise inside `_load_model` propagates, so the caller never
obtains a `Detector` value on the error path. -/
def init (env : TorchEnv) (model_name : String) (device : Option String) :
    Except PyError Detector :=
  _load_model env
    { device := chooseDevice env.cudaAvailable device
      model_name := model_name
      model := none
      transform := none }

/-- First half of `preprocess_image`: the `isinstance` dispatch converting
the input to a PIL image in RGB mode, raising `ValueError` on an
unrecognized type. -/
def toPILImage (penv : PILEnv) (image : ImageInput) : Except PyError PILImage :=
  match image with
  | .path p =>
    match penv.openPath p with
    | some img => .ok (penv.convertRGB img)
    | none => .error .imageDecodeError
  | .bytesData b =>
    match penv.openBytes b with
    | some img => .ok (penv.convertRGB img)
    | none => .error .imageDecodeError
  | .ndarray a =>
    match penv.fromarray a with
    | some img => .ok (penv.convertRGB img)
    | none => .error .imageDecodeError
  | .pilImage img => .ok (penv.convertRGB img)
  | .other => .error .valueErrorUnsupportedImageType

/-- Method `preprocess_image(image)`: `isinstance` dispatch to a PIL image, then the
weights transform (or the `ToTensor` fallback when `self.transform` is
falsy).  Returned in state-passing style: the second component is the
`Detector` state after the call. -/
def preprocess_image (penv : PILEnv) (d : Detector) (image : ImageInput) :
    Except PyError Tensor × Detector :=
  match toPILImage penv image with
  | .error e => (.error e, d)
  | .ok img =>
    match d.transform with
    | some t => (.ok (t img), d)
    | none => (.ok (penv.toTensor img), d)

/-- The `for box, score, label in zip(boxes, scores, labels)` loop of
`detect`: keep a candidate iff `score >= confidence_threshold`, resolving its
label through `class_names[label]`; an out-of-bounds index raises
`IndexError` on the spot, discarding the partial list. -/
def detect_loop (class_names : List String) (confidence_threshold : ℚ) :
    List ((ℚ × ℚ × ℚ × ℚ) × ℚ × Nat) → Except PyError (List Detection)
  | [] => .ok []
  | (box, score, label) :: rest =>
    if score ≥ confidence_threshold then
      match class_names[label]? with
      | some name =>
        match detect_loop class_names confidence_threshold rest with
        | .ok ds => .ok ({ bbox := box, score := score,
                           label := name, label_id := label } :: ds)
        | .error e => .error e
      | none => .error .indexError
    else
      detect_loop class_names confidence_threshold rest

/-- Method `detect(image, confidence_threshold)`: preprocess, batch, move to device,
one forward pass, class-name resolution, threshold filter.  State-passing
like `preprocess_image`. -/
def detect (penv : PILEnv) (d : Detector) (image : ImageInput)
    (confidence_threshold : ℚ) : Except PyError (List Detection) × Detector :=
  match preprocess_image penv d image with
  | (.error e, d1) => (.error e, d1)
  | (.ok img_tensor, d1) =>
    let img_tensor := (img_tensor.unsqueeze0).toDevice d1.device
    match d1.model with
    | none => (.error .noneNotCallable, d1)
    | some m =>
      let pred := m.infer img_tensor
      let class_names :=
        if m.hasGetClassNames then m.getClassNames else _get_coco_class_names
      (detect_loop class_names confidence_threshold
        (pred.boxes.zip (pred.scores.zip pred.labels)), d1)

/-- Number of `_get_coco_class_names` invocations performed during one
`detect` call, read off the source: the call sits after preprocessing and
inference and runs exactly when the network lacks a `get_class_names`
attribute. -/
def detect_tableLoads (penv : PILEnv) (d : Detector) (image : ImageInput) : Nat :=
  match preprocess_image penv d image with
  | (.error _, _) => 0
  | (.ok _, d1) =>
    match d1.model with
    | none => 0
    | some m => if m.hasGetClassNames then 0 else 1

/-- Number of `_get_coco_class_names` invocations performed during
construction: `__init__` and `_load_model` contain no call to it. -/
def init_tableLoads (_model_name : String) (_device : Option String) : Nat :=
  0

/-- Class-name table `detect` uses for a given network: the
`hasattr(self.model, 'get_class_names')` branch of `detect`. -/
def classNamesOf (m : NetworkModel) : List String :=
  if m.hasGetClassNames then m.getClassNames else _get_coco_class_names

/-- Zipped candidate triples `(box, score, label)` that the `for` loop of
`detect` iterates over, for a network `m`, device `dev` and preprocessed
tensor `tensor`. -/
def rawCandidates (m : NetworkModel) (dev : String) (tensor : Tensor) :
    List ((ℚ × ℚ × ℚ × ℚ) × ℚ × Nat) :=
  let pred := m.infer ((tensor.unsqueeze0).toDevice dev)
  pred.boxes.zip (pred.scores.zip pred.labels)

/-- Detection record the loop body of `detect` builds from one candidate
triple (label resolved through the class-name table). -/
def mkDetection (class_names : List String) (c : (ℚ × ℚ × ℚ × ℚ) × ℚ × Nat) :
    Detection :=
  { bbox := c.1, score := c.2.1,
    label := (class_names[c.2.2]?).getD "", label_id := c.2.2 }

end ImageDetectionModel

/-! ### Driver (`src/model/detect.py`) -/

/-- Environment of the driver: the model environments plus
`Path(image_path).exists()`. -/
structure DriverEnv where
  pil : PILEnv
  torch : TorchEnv
  pathExists : String → Bool

/-- The JSON result object `detect_image` assembles. -/
structure Results where
  image_path : String
  num_detections : Nat
  detections : List Detection
deriving DecidableEq, Repr

/-- Non-exceptional outcome of `detect_image`: either the early
`sys.exit(1)` on a missing file, or the results object. -/
inductive DIOutcome where
  | exitFileNotFound
  | ok (results : Results)
deriving DecidableEq, Repr

/-- Library entry point `detect_image(image_path, confidence, output)`: validate the path exists,
construct `ImageDetectionModel()` with its defaults, call
`detector.detect(image_path, confidence_threshold=confidence)`, and wrap the
results.  Exceptions from construction or detection propagate to the caller.
(The optional JSON file write only serializes `results` and is omitted.) -/
def detect_image (env : DriverEnv) (image_path : String) (confidence : ℚ) :
    Except PyError DIOutcome :=
  if env.pathExists image_path then
    match ImageDetectionModel.init env.torch "fasterrcnn_resnet50_fpn" none with
    | .error e => .error e
    | .ok detector =>
      match (ImageDetectionModel.detect env.pil detector
              (.path image_path) confidence).1 with
      | .error e => .error e
      | .ok detections =>
        .ok (.ok { image_path := image_path
                   num_detections := detections.length
                   detections := detections })
  else
    .ok .exitFileNotFound

/-- Process outcome of the CLI entry point `main`. -/
inductive MainOutcome where
  /-- Exit via `sys.exit(1)` after "Confidence threshold must be between 0.0 and 1.0". -/
  | exitRangeError
  /-- Exit via `sys.exit(1)` from `detect_image` after "Image file not found". -/
  | exitFileNotFound
  /-- Exit via `sys.exit(1)` from the `except Exception` handler around `detect_image`. -/
  | exitError (e : PyError)
  /-- Normal termination. -/
  | success (results : Results)
deriving DecidableEq, Repr

/-- CLI entry point `main()` after argument parsing: validate `0.0 <= confidence <= 1.0`
(else exit 1), then run `detect_image` under a catch-all handler. -/
def main (env : DriverEnv) (image : String) (confidence : ℚ) : MainOutcome :=
  if 0 ≤ confidence ∧ confidence ≤ 1 then
    match detect_image env image confidence with
    | .error e => .exitError e
    | .ok .exitFileNotFound => .exitFileNotFound
    | .ok (.ok r) => .success r
  else
    .exitRangeError

/-! ### Concrete fixtures for evaluating the model on closed inputs -/

/-- A PIL environment in which every decode succeeds. -/
def pil0 : PILEnv :=
  { openPath := fun _ => some { pixels := 1 }
    openBytes := fun _ => some { pixels := 2 }
    fromarray := fun _ => some { pixels := 3 }
    convertRGB := fun img => img
    toTensor := fun img => { data := img.pixels, batched := false, device := "none" } }

/-- A PIL environment in which every decode fails. -/
def pilBad : PILEnv :=
  { openPath := fun _ => none
    openBytes := fun _ => none
    fromarray := fun _ => none
    convertRGB := fun img => img
    toTensor := fun img => { data := img.pixels, batched := false, device := "none" } }

/-- A network producing two candidates: scores 9 (label 1, `person`) and
3 (label 18, `dog`); all label ids within the 91-entry table.  Scores are
integer-valued rationals so closed evaluation stays kernel-reducible. -/
def goodNet : NetworkModel :=
  { infer := fun _ =>
      { boxes := [(0, 0, 10, 10), (1, 1, 5, 5)]
        scores := [9, 3]
        labels := [1, 18] }
    hasGetClassNames := false
    getClassNames := [] }

/-- Torch environment installing `goodNet` as the pretrained network, on a
machine without CUDA. -/
def torch0 : TorchEnv :=
  { cudaAvailable := false
    pretrained := goodNet
    weightsTransform := fun img => { data := img.pixels, batched := false, device := "cpu" } }

/-- The detector state `__init__` produces from `torch0` with default
arguments. -/
def det0 : Detector :=
  { device := "cpu"
    model_name := "fasterrcnn_resnet50_fpn"
    model := some torch0.pretrained
    transform := some torch0.weightsTransform }

/-- A network producing one confident candidate (score 9) whose label id 95
lies outside the 91-entry class-name table. -/
def badNet : NetworkModel :=
  { infer := fun _ =>
      { boxes := [(0, 0, 1, 1)]
        scores := [9]
        labels := [95] }
    hasGetClassNames := false
    getClassNames := [] }

/-- Torch environment installing `badNet` as the pretrained network. -/
def badTorch : TorchEnv :=
  { cudaAvailable := false
    pretrained := badNet
    weightsTransform := fun img => { data := img.pixels, batched := false, device := "cpu" } }

/-- The detector state `__init__` produces from `badTorch` with default
arguments. -/
def badDet : Detector :=
  { device := "cpu"
    model_name := "fasterrcnn_resnet50_fpn"
    model := some badTorch.pretrained
    transform := some badTorch.weightsTransform }

/-- Driver environment over `pil0`/`torch0` in which every path exists. -/
def env0 : DriverEnv :=
  { pil := pil0
    torch := torch0
    pathExists := fun _ => true }

/-! ### Helper lemmas -/

/-- The `preprocess_image` translation returns the detector state unchanged:
its body contains no assignment to `self`. -/
theorem preprocess_image_state (penv : PILEnv) (d : Detector) (image : ImageInput) :
    (ImageDetectionModel.preprocess_image penv d image).2 = d := by
  unfold ImageDetectionModel.preprocess_image
  split
  · rfl
  · split <;> rfl

/-- The `detect` translation returns the detector state unchanged: its body
contains no assignment to `self`. -/
theorem detect_state (penv : PILEnv) (d : Detector) (image : ImageInput) (t : ℚ) :
    (ImageDetectionModel.detect penv d image t).2 = d := by
  have hp := preprocess_image_state penv d image
  unfold ImageDetectionModel.detect
  split
  · next e d1 heq =>
      rw [heq] at hp
      exact hp
  · next tensor d1 heq =>
      rw [heq] at hp
      rcases hm : d1.model with _ | m <;> simp only [hm] <;> exact hp

/-- When every retained candidate's label id is within the table, the loop of
`detect` returns exactly the threshold-filtered candidates, in order, mapped
to detection records. -/
theorem detect_loop_eq_filter (cs : List String) (t : ℚ)
    (l : List ((ℚ × ℚ × ℚ × ℚ) × ℚ × Nat))
    (h : ∀ c ∈ l, t ≤ c.2.1 → c.2.2 < cs.length) :
    ImageDetectionModel.detect_loop cs t l =
      .ok ((l.filter fun c => t ≤ c.2.1).map (ImageDetectionModel.mkDetection cs)) := by
  induction l with
  | nil => rfl
  | cons c rest ih =>
    obtain ⟨box, score, label⟩ := c
    have hrest : ∀ c ∈ rest, t ≤ c.2.1 → c.2.2 < cs.length :=
      fun c hc => h c (List.mem_cons_of_mem _ hc)
    by_cases hsc : t ≤ score
    · have hlt : label < cs.length := h (box, score, label) (List.mem_cons_self _ _) hsc
      have hget : cs[label]? = some cs[label] := List.getElem?_eq_getElem hlt
      simp [ImageDetectionModel.detect_loop, ImageDetectionModel.mkDetection,
        hsc, hget, ih hrest, List.filter_cons]
    · simp [ImageDetectionModel.detect_loop, hsc, ih hrest, List.filter_cons]

/-- Raising the threshold can only shrink the (successful) loop output: the
higher-threshold result is a sublist of the lower-threshold one. -/
theorem detect_loop_mono (cs : List String) (t1 t2 : ℚ) (ht : t1 ≤ t2)
    (l : List ((ℚ × ℚ × ℚ × ℚ) × ℚ × Nat)) (l1 l2 : List Detection)
    (h1 : ImageDetectionModel.detect_loop cs t1 l = .ok l1)
    (h2 : ImageDetectionModel.detect_loop cs t2 l = .ok l2) :
    l2.Sublist l1 := by
  induction l generalizing l1 l2 with
  | nil =>
    simp only [ImageDetectionModel.detect_loop, Except.ok.injEq] at h1 h2
    subst h1
    subst h2
    exact List.Sublist.refl _
  | cons c rest ih =>
    obtain ⟨box, score, label⟩ := c
    simp only [ImageDetectionModel.detect_loop] at h1 h2
    by_cases hs2 : t2 ≤ score
    · have hs1 : t1 ≤ score := le_trans ht hs2
      rw [if_pos hs1] at h1
      rw [if_pos hs2] at h2
      cases hget : cs[label]? with
      | none =>
        rw [hget] at h1
        exact absurd h1 (by simp)
      | some name =>
        rw [hget] at h1 h2
        cases hr1 : ImageDetectionModel.detect_loop cs t1 rest with
        | error e =>
          rw [hr1] at h1
          exact absurd h1 (by simp)
        | ok ds1 =>
          cases hr2 : ImageDetectionModel.detect_loop cs t2 rest with
          | error e =>
            rw [hr2] at h2
            exact absurd h2 (by simp)
          | ok ds2 =>
            rw [hr1] at h1
            rw [hr2] at h2
            injection h1 with h1
            injection h2 with h2
            subst h1
            subst h2
            exact List.Sublist.cons₂ _ (ih ds1 ds2 hr1 hr2)
    · rw [if_neg hs2] at h2
      by_cases hs1 : t1 ≤ score
      · rw [if_pos hs1] at h1
        cases hget : cs[label]? with
        | none =>
          rw [hget] at h1
          exact absurd h1 (by simp)
        | some name =>
          rw [hget] at h1
          cases hr1 : ImageDetectionModel.detect_loop cs t1 rest with
          | error e =>
            rw [hr1] at h1
            exact absurd h1 (by simp)
          | ok ds1 =>
            rw [hr1] at h1
            injection h1 with h1
            subst h1
            exact List.Sublist.cons _ (ih ds1 l2 hr1 h2)
      · rw [if_neg hs1] at h1
        exact ih l1 l2 h1 h2

/-- Characterization of a `detect` call whose preprocessing succeeds on a
detector holding a network: it runs the loop on the zipped raw candidates
with the class-name table of that network. -/
theorem detect_run (penv : PILEnv) (d : Detector) (image : ImageInput)
    (t : ℚ) (tensor : Tensor) (m : NetworkModel)
    (hpre : (ImageDetectionModel.preprocess_image penv d image).1 = .ok tensor)
    (hm : d.model = some m) :
    (ImageDetectionModel.detect penv d image t).1 =
      ImageDetectionModel.detect_loop (ImageDetectionModel.classNamesOf m) t
        (ImageDetectionModel.rawCandidates m d.device tensor) := by
  have hp2 := preprocess_image_state penv d image
  unfold ImageDetectionModel.detect
  rcases hpe : ImageDetectionModel.preprocess_image penv d image with ⟨res, d1⟩
  rw [hpe] at hp2 hpre
  dsimp at hp2 hpre
  subst hp2
  subst hpre
  simp [hm, ImageDetectionModel.classNamesOf, ImageDetectionModel.rawCandidates]

/-- Error characterization of `preprocess_image`: its first component is an
error exactly when the `isinstance` dispatch stage errors (the transform
stage never raises). -/
theorem preprocess_image_fst_error (penv : PILEnv) (d : Detector)
    (image : ImageInput) (e : PyError) :
    (ImageDetectionModel.preprocess_image penv d image).1 = .error e ↔
      ImageDetectionModel.toPILImage penv image = .error e := by
  unfold ImageDetectionModel.preprocess_image
  split
  · next e' heq =>
      rw [heq]
      simp
  · next img heq =>
      rw [heq]
      cases d.transform <;> simp

/-! ### Claims -/

/-- C1: for every image and threshold, a successful `detect` call returns
exactly the raw candidates whose score is at least the threshold, in the
network's original candidate order (an order-preserving filter, with no
re-sorting and no extra suppression), each mapped to its detection record. -/
theorem detect_threshold_filter_exact (penv : PILEnv) (d : Detector)
    (image : ImageInput) (t : ℚ) (tensor : Tensor) (m : NetworkModel)
    (hpre : (ImageDetectionModel.preprocess_image penv d image).1 = .ok tensor)
    (hm : d.model = some m)
    (hlab : ∀ c ∈ ImageDetectionModel.rawCandidates m d.device tensor,
      t ≤ c.2.1 → c.2.2 < (ImageDetectionModel.classNamesOf m).length) :
    (ImageDetectionModel.detect penv d image t).1 =
      .ok (((ImageDetectionModel.rawCandidates m d.device tensor).filter
              fun c => t ≤ c.2.1).map
            (ImageDetectionModel.mkDetection (ImageDetectionModel.classNamesOf m))) := by
  rw [detect_run penv d image t tensor m hpre hm]
  exact detect_loop_eq_filter _ t _ hlab

/-- Witness for C1 on the concrete fixture: threshold 5 keeps exactly the
score-9 candidate, in order. -/
theorem detect_threshold_filter_exact_witness :
    (ImageDetectionModel.preprocess_image pil0 det0 (.path "cat.jpg")).1 =
      .ok { data := 1, batched := false, device := "cpu" } ∧
    det0.model = some goodNet ∧
    (∀ c ∈ ImageDetectionModel.rawCandidates goodNet det0.device
        { data := 1, batched := false, device := "cpu" },
      (5 : ℚ) ≤ c.2.1 → c.2.2 < (ImageDetectionModel.classNamesOf goodNet).length) ∧
    (ImageDetectionModel.detect pil0 det0 (.path "cat.jpg") 5).1 =
      .ok (((ImageDetectionModel.rawCandidates goodNet det0.device
              { data := 1, batched := false, device := "cpu" }).filter
              fun c => (5 : ℚ) ≤ c.2.1).map
            (ImageDetectionModel.mkDetection (ImageDetectionModel.classNamesOf goodNet))) :=
  ⟨rfl, rfl, by decide,
    detect_threshold_filter_exact pil0 det0 (.path "cat.jpg") 5
      { data := 1, batched := false, device := "cpu" } goodNet rfl rfl (by decide)⟩

/-- C2 (code bug): on a candidate that passes the threshold but whose label
id (95) is outside the 91-entry table, `detect` surfaces the unstructured
low-level `IndexError` of the unchecked `class_names[label]` lookup — not
the structured `InferenceError` the spec mandates. -/
theorem detect_out_of_bounds_label_raises_indexError :
    (ImageDetectionModel.detect pil0 badDet (.path "img.jpg") 5).1 =
      .error .indexError ∧
    PyError.indexError ≠ PyError.inferenceError :=
  ⟨rfl, by decide⟩

/-- C3: raising the threshold can only remove detections: whenever both
calls succeed on the same image, the higher-threshold result is a subset of
the lower-threshold result. -/
theorem detect_monotone_in_threshold (penv : PILEnv) (d : Detector)
    (image : ImageInput) (t1 t2 : ℚ) (ht : t1 < t2) (l1 l2 : List Detection)
    (h1 : (ImageDetectionModel.detect penv d image t1).1 = .ok l1)
    (h2 : (ImageDetectionModel.detect penv d image t2).1 = .ok l2) :
    l2 ⊆ l1 := by
  unfold ImageDetectionModel.detect at h1 h2
  rcases hpe : ImageDetectionModel.preprocess_image penv d image with ⟨res, d1⟩
  rw [hpe] at h1 h2
  cases res with
  | error e => simp at h1
  | ok tensor =>
    dsimp at h1 h2
    rcases hm : d1.model with _ | m
    · rw [hm] at h1
      simp at h1
    · rw [hm] at h1 h2
      dsimp at h1 h2
      exact (detect_loop_mono _ t1 t2 ht.le _ l1 l2 h1 h2).subset

/-- Witness for C3 on the concrete fixture: thresholds 5 and 10. -/
theorem detect_monotone_in_threshold_witness :
    (5 : ℚ) < 10 ∧
    (ImageDetectionModel.detect pil0 det0 (.path "cat.jpg") 5).1 =
      .ok [{ bbox := (0, 0, 10, 10), score := 9, label := "person", label_id := 1 }] ∧
    (ImageDetectionModel.detect pil0 det0 (.path "cat.jpg") 10).1 =
      .ok ([] : List Detection) ∧
    ([] : List Detection) ⊆
      [{ bbox := (0, 0, 10, 10), score := 9, label := "person", label_id := 1 }] :=
  ⟨by decide, rfl, rfl,
    detect_monotone_in_threshold pil0 det0 (.path "cat.jpg") 5 10 (by decide) _ _ rfl rfl⟩

/-- C4: constructing with any model identifier other than the single
supported one fails with the unsupported-model error and yields no detector
value at all (the error branch of `Except` carries no `Detector`). -/
theorem init_unsupported_model_fails (env : TorchEnv) (model_name : String)
    (device : Option String) (h : model_name ≠ "fasterrcnn_resnet50_fpn") :
    ImageDetectionModel.init env model_name device =
      .error (.valueErrorUnsupportedModel model_name) ∧
    ∀ d : Detector, ImageDetectionModel.init env model_name device ≠ .ok d := by
  unfold ImageDetectionModel.init ImageDetectionModel._load_model
  simp [h]

/-- Witness for C4 at the concrete identifier "yolo". -/
theorem init_unsupported_model_fails_witness :
    "yolo" ≠ "fasterrcnn_resnet50_fpn" ∧
    ImageDetectionModel.init torch0 "yolo" none =
      .error (.valueErrorUnsupportedModel "yolo") :=
  ⟨by decide, (init_unsupported_model_fails torch0 "yolo" none (by decide)).1⟩

/-- C5: the label table is a fixed ordered list of exactly 91 entries whose
entry at index 0 is the reserved background name. -/
theorem coco_table_91_background :
    ImageDetectionModel._get_coco_class_names.length = 91 ∧
    ImageDetectionModel._get_coco_class_names[0]? = some "__background__" :=
  ⟨rfl, rfl⟩

/-- C6: `preprocess_image` accepts exactly the four recognized input forms —
none of them can produce the unsupported-type error — and every input of any
other type fails with exactly that error. -/
theorem preprocess_accepts_exactly_four_forms :
    (∀ (penv : PILEnv) (d : Detector) (p : String),
      (ImageDetectionModel.preprocess_image penv d (.path p)).1 ≠
        .error .valueErrorUnsupportedImageType) ∧
    (∀ (penv : PILEnv) (d : Detector) (b : List Nat),
      (ImageDetectionModel.preprocess_image penv d (.bytesData b)).1 ≠
        .error .valueErrorUnsupportedImageType) ∧
    (∀ (penv : PILEnv) (d : Detector) (a : NdArray),
      (ImageDetectionModel.preprocess_image penv d (.ndarray a)).1 ≠
        .error .valueErrorUnsupportedImageType) ∧
    (∀ (penv : PILEnv) (d : Detector) (img : PILImage),
      (ImageDetectionModel.preprocess_image penv d (.pilImage img)).1 ≠
        .error .valueErrorUnsupportedImageType) ∧
    (∀ (penv : PILEnv) (d : Detector),
      (ImageDetectionModel.preprocess_image penv d .other).1 =
        .error .valueErrorUnsupportedImageType) := by
  refine ⟨?_, ?_, ?_, ?_, fun penv d => rfl⟩
  · intro penv d p hcontra
    rw [preprocess_image_fst_error] at hcontra
    cases h : penv.openPath p <;>
      simp [ImageDetectionModel.toPILImage, h] at hcontra
  · intro penv d b hcontra
    rw [preprocess_image_fst_error] at hcontra
    cases h : penv.openBytes b <;>
      simp [ImageDetectionModel.toPILImage, h] at hcontra
  · intro penv d a hcontra
    rw [preprocess_image_fst_error] at hcontra
    cases h : penv.fromarray a <;>
      simp [ImageDetectionModel.toPILImage, h] at hcontra
  · intro penv d img hcontra
    rw [preprocess_image_fst_error] at hcontra
    simp [ImageDetectionModel.toPILImage] at hcontra

/-- C7 counterexample: on the concrete fixture, construction performs zero
label-table loads while a single `detect` call performs one, refuting
"loaded exactly once, at Detector construction, and never rebuilt by a
detect call". -/
theorem labelTable_not_loaded_at_construction :
    ¬ (ImageDetectionModel.init_tableLoads "fasterrcnn_resnet50_fpn" none = 1 ∧
       ImageDetectionModel.detect_tableLoads pil0 det0 (.path "cat.jpg") = 0) := by
  decide

/-- C7 amended: the label table is not loaded at construction (zero loads)
and is not stored in detector state; each `detect` call whose preprocessing
succeeds on a network without `get_class_names` recomputes it exactly once
via the pure constant function, so every call observes the same fixed
table. -/
theorem labelTable_rebuilt_per_detect_constant (penv : PILEnv) (d : Detector)
    (image : ImageInput) (m : NetworkModel) (tensor : Tensor)
    (hm : d.model = some m) (hn : m.hasGetClassNames = false)
    (hpre : (ImageDetectionModel.preprocess_image penv d image).1 = .ok tensor) :
    ImageDetectionModel.classNamesOf m = ImageDetectionModel._get_coco_class_names ∧
    ImageDetectionModel.detect_tableLoads penv d image = 1 ∧
    ∀ (name : String) (dev : Option String),
      ImageDetectionModel.init_tableLoads name dev = 0 := by
  refine ⟨by simp [ImageDetectionModel.classNamesOf, hn], ?_, fun _ _ => rfl⟩
  have hp2 := preprocess_image_state penv d image
  unfold ImageDetectionModel.detect_tableLoads
  rcases hpe : ImageDetectionModel.preprocess_image penv d image with ⟨res, d1⟩
  rw [hpe] at hp2 hpre
  dsimp at hp2 hpre
  subst hp2
  subst hpre
  simp [hm, hn]

/-- Witness for the amended C7 on the concrete fixture. -/
theorem labelTable_rebuilt_per_detect_constant_witness :
    det0.model = some goodNet ∧
    goodNet.hasGetClassNames = false ∧
    (ImageDetectionModel.preprocess_image pil0 det0 (.path "cat.jpg")).1 =
      .ok { data := 1, batched := false, device := "cpu" } ∧
    (ImageDetectionModel.classNamesOf goodNet =
        ImageDetectionModel._get_coco_class_names ∧
      ImageDetectionModel.detect_tableLoads pil0 det0 (.path "cat.jpg") = 1 ∧
      ∀ (name : String) (dev : Option String),
        ImageDetectionModel.init_tableLoads name dev = 0) :=
  ⟨rfl, rfl, rfl,
    labelTable_rebuilt_per_detect_constant pil0 det0 (.path "cat.jpg") goodNet
      { data := 1, batched := false, device := "cpu" } rfl rfl rfl⟩

/-- C8: `detect` is deterministic and idempotent with respect to the
detector instance: a second call with identical image and threshold on the
state left by the first yields the identical result and state (given the
deterministic black-box network of evaluation mode). -/
theorem detect_deterministic_idempotent (penv : PILEnv) (d : Detector)
    (image : ImageInput) (t : ℚ) :
    (ImageDetectionModel.detect penv
        ((ImageDetectionModel.detect penv d image t).2) image t).1 =
      (ImageDetectionModel.detect penv d image t).1 ∧
    (ImageDetectionModel.detect penv
        ((ImageDetectionModel.detect penv d image t).2) image t).2 =
      (ImageDetectionModel.detect penv d image t).2 := by
  rw [detect_state penv d image t]
  exact ⟨rfl, detect_state penv d image t⟩

/-- C9: `preprocess_image` and `detect` are read-only on detector state: the
device, model handle, model name and preprocessing transform after either
call equal their values before it. -/
theorem preprocess_detect_readonly_state (penv : PILEnv) (d : Detector)
    (image : ImageInput) (t : ℚ) :
    ((ImageDetectionModel.preprocess_image penv d image).2.device = d.device ∧
     (ImageDetectionModel.preprocess_image penv d image).2.model = d.model ∧
     (ImageDetectionModel.preprocess_image penv d image).2.model_name = d.model_name ∧
     (ImageDetectionModel.preprocess_image penv d image).2.transform = d.transform) ∧
    ((ImageDetectionModel.detect penv d image t).2.device = d.device ∧
     (ImageDetectionModel.detect penv d image t).2.model = d.model ∧
     (ImageDetectionModel.detect penv d image t).2.model_name = d.model_name ∧
     (ImageDetectionModel.detect penv d image t).2.transform = d.transform) := by
  rw [preprocess_image_state penv d image, detect_state penv d image t]
  exact ⟨⟨rfl, rfl, rfl, rfl⟩, ⟨rfl, rfl, rfl, rfl⟩⟩

/-- C10: confidence-range validation lives only in the CLI entry point:
`main` rejects an out-of-range value before any work, while `detect_image`
on an existing path performs no range check and hands the value unchanged to
`detect`. -/
theorem confidence_validation_only_in_main (env : DriverEnv) (path : String)
    (c : ℚ) (hex : env.pathExists path = true) (hc : c < 0 ∨ 1 < c) :
    main env path c = .exitRangeError ∧
    detect_image env path c =
      (match ImageDetectionModel.init env.torch "fasterrcnn_resnet50_fpn" none with
       | .error e => .error e
       | .ok detector =>
         match (ImageDetectionModel.detect env.pil detector (.path path) c).1 with
         | .error e => .error e
         | .ok detections =>
           .ok (.ok { image_path := path
                      num_detections := detections.length
                      detections := detections })) := by
  constructor
  · have hno : ¬ (0 ≤ c ∧ c ≤ 1) := by
      rcases hc with h | h
      · exact fun hcc => absurd hcc.1 (not_le.mpr h)
      · exact fun hcc => absurd hcc.2 (not_le.mpr h)
    unfold main
    rw [if_neg hno]
  · unfold detect_image
    rw [if_pos hex]

/-- Witness for C10 at the out-of-range confidence 2 on the concrete
fixture. -/
theorem confidence_validation_only_in_main_witness :
    env0.pathExists "cat.jpg" = true ∧
    ((2 : ℚ) < 0 ∨ 1 < (2 : ℚ)) ∧
    (main env0 "cat.jpg" 2 = .exitRangeError ∧
     detect_image env0 "cat.jpg" 2 =
       (match ImageDetectionModel.init env0.torch "fasterrcnn_resnet50_fpn" none with
        | .error e => .error e
        | .ok detector =>
          match (ImageDetectionModel.detect env0.pil detector
                  (.path "cat.jpg") 2).1 with
          | .error e => .error e
          | .ok detections =>
            .ok (.ok { image_path := "cat.jpg"
                       num_detections := detections.length
                       detections := detections }))) :=
  ⟨rfl, Or.inr (by decide),
    confidence_validation_only_in_main env0 "cat.jpg" 2 rfl (Or.inr (by decide))⟩

end CounterAI
